import Mathlib

/-!
jsterm: a shallow embedding of `src/main.c`

The program embeds a JavaScript engine and runs every command-line argument as
a script on a thread of its own.  Every function of `main.c` is translated to a
Lean function that returns the sequence of external calls it makes (its
*trace*) together with its C return value.  What an external call returns is
not computed by the program, so it is an input of the translation:

* pointers are natural numbers and `0` is `NULL`;
* the outcomes of the engine's construction calls are an `InitEnv`;
* the engine's evaluation and conversion results are an `Engine`;
* what `calloc`, `malloc`, `pthread_create` and `pthread_join` hand back for
  the task of loop index `i` is a `TaskEnv`.

Where the source goes on after a call whose result it never tests and the C
library leaves the behaviour undefined, the embedding records the last call
made and cuts the run there: `run_script` and `main` then have no return
value (`none`).  This happens when `init_jscx` is handed the `NULL` that
`malloc` returned, when `pthread_join` is handed an element of `tid` that no
`pthread_create` has written, and when `JS_EncodeString` is handed a pointer
that is not a string and the engine faults on it.  A trace lists the calls a
function makes itself; what the engine does inside one of its calls is not
part of it.
-/

namespace JsTerm

/-! ## Data model -/

/-- A C pointer; `0` is `NULL`. -/
abbrev Ptr := Nat

/-- The C constant `NULL`. -/
def NULL : Ptr := 0

/-- The macro `OK` of `main.c`. -/
def OK : Int := 0

/-- The engine constant `JS_TRUE`. -/
def JS_TRUE : Int := 1

/-- The engine constant `JS_FALSE`. -/
def JS_FALSE : Int := 0

/-- The struct `spidermonkey_ctxt`. -/
structure sm_cx_t where
  rt : Ptr
  cx : Ptr
  global : Ptr
  deriving DecidableEq, Repr

/-- The struct `thread_ctxt`; `jscx` is the record the C field points to and
`script` the NUL-terminated buffer the C field points to. -/
structure thread_cx_t where
  jscx : sm_cx_t
  script : String
  len : Int
  deriving DecidableEq, Repr

/-- A `jsval`, as far as `main.c` tells values apart: the null value, the
undefined value, a string value (with the pointer to its `JSString`), or any
other value (with its payload bits). -/
inductive jsval where
  | null
  | void
  | string (str : Ptr)
  | other (bits : Nat)
  deriving DecidableEq, Repr

/-- The macro `JSVAL_IS_NULL`. -/
def JSVAL_IS_NULL : jsval → Bool
  | .null => true
  | _ => false

/-- The macro `JSVAL_IS_VOID`. -/
def JSVAL_IS_VOID : jsval → Bool
  | .void => true
  | _ => false

/-- The macro `JSVAL_TO_STRING`: it does not look at the tag of the value and
hands back the payload as a `JSString` pointer. -/
def JSVAL_TO_STRING : jsval → Ptr
  | .string str => str
  | .other bits => bits
  | _ => 0

/-- The three standard streams `main.c` writes to. -/
inductive Stream where
  | stdin
  | stdout
  | stderr
  deriving DecidableEq, Repr

/-- The function installed by `JS_SetOperationCallback`; `main.c` has one. -/
inductive Callback where
  | op_callback
  deriving DecidableEq, Repr

/-- One external call, with the arguments that matter.  The argument of
`pthread_join` is `none` when the element of `tid` it is read from has never
been written. -/
inductive Event where
  | fprintf (f : Stream) (text : String)
  | JS_NewRuntime (maxbytes : Nat)
  | JS_NewContext (rt : Ptr) (stackChunkSize : Nat)
  | JS_SetOptions (cx : Ptr)
  | JS_SetVersion (cx : Ptr)
  | JS_SetErrorReporter (cx : Ptr)
  | JS_SetOperationCallback (cx : Ptr) (callback : Option Callback)
  | JS_NewCompartmentAndGlobalObject (cx : Ptr)
  | JS_InitStandardClasses (cx : Ptr) (global : Ptr)
  | JS_DestroyContext (cx : Ptr)
  | JS_DestroyRuntime (rt : Ptr)
  | JS_ShutDown
  | JS_MaybeGC (cx : Ptr)
  | JS_BeginRequest (cx : Ptr)
  | JS_EndRequest (cx : Ptr)
  | JS_EvaluateScript (cx : Ptr) (global : Ptr) (script : String) (len : Int)
  | JS_ValueToObject (cx : Ptr) (v : jsval)
  | JS_CallFunctionName (cx : Ptr) (obj : Ptr) (name : String)
  | JS_EncodeString (cx : Ptr) (str : Ptr)
  | JS_free (cx : Ptr)
  | calloc (nmemb : Int) (size : Nat)
  | strncpy (src : String) (n : Int)
  | malloc_sm_cx_t
  | pthread_create (arg : thread_cx_t)
  | pthread_join (tid : Option Nat)
  | free_jscx (jscx : sm_cx_t)
  | free_script (script : String)
  deriving DecidableEq, Repr

/-- The text `printf` writes for `(unsigned int) x` under `%u`. -/
def fmt_u (x : Nat) : String := toString (x % 2 ^ 32)

/-! ## `op_callback` -/

/-- The function `op_callback` (lines 45-58): trace and returned `JSBool`. -/
def op_callback (pid tid : Nat) (cx : Ptr) : List Event × Int :=
  ([ Event.fprintf Stream.stdout (fmt_u pid ++ "(" ++ fmt_u tid ++ ") op_callback"),
     Event.JS_SetOperationCallback cx none,
     Event.JS_MaybeGC cx,
     Event.JS_SetOperationCallback cx (some Callback.op_callback) ],
   JS_TRUE)

/-- The operation callback installed on context `cx` after one call: only
`JS_SetOperationCallback` on `cx` changes it. -/
def hookStep (cx : Ptr) (hook : Option Callback) : Event → Option Callback
  | .JS_SetOperationCallback c cb => if c = cx then cb else hook
  | _ => hook

/-- The operation callback installed on context `cx` after a trace. -/
def hookAfter (cx : Ptr) (hook : Option Callback) (tr : List Event) : Option Callback :=
  tr.foldl (hookStep cx) hook

/-! ## `init_jscx` and `clean_up_jscx` -/

/-- What the four construction calls of `init_jscx` return, should they be
reached. -/
structure InitEnv where
  newRuntime : Ptr
  newContext : Ptr
  newGlobal : Ptr
  initStandardClasses : Int
  deriving DecidableEq, Repr

/-- The result of `init_jscx`: its trace, the record it leaves behind and the
returned code. -/
structure InitResult where
  trace : List Event
  jscx : sm_cx_t
  code : Int
  deriving DecidableEq, Repr

/-- The function `init_jscx` (lines 60-86), run on a record holding `j`. -/
def init_jscx (j : sm_cx_t) (e : InitEnv) : InitResult :=
  let t1 := [Event.JS_NewRuntime (8 * 1024 * 1024)]
  let j1 := { j with rt := e.newRuntime }
  if j1.rt = NULL then ⟨t1, j1, 1⟩
  else
    let t2 := t1 ++ [Event.JS_NewContext j1.rt 8192]
    let j2 := { j1 with cx := e.newContext }
    if j2.cx = NULL then ⟨t2, j2, 2⟩
    else
      let t3 := t2 ++ [Event.JS_SetOptions j2.cx, Event.JS_SetVersion j2.cx,
        Event.JS_SetErrorReporter j2.cx,
        Event.JS_SetOperationCallback j2.cx (some Callback.op_callback),
        Event.JS_NewCompartmentAndGlobalObject j2.cx]
      let j3 := { j2 with global := e.newGlobal }
      if j3.global = NULL then ⟨t3, j3, 3⟩
      else
        let t4 := t3 ++ [Event.JS_InitStandardClasses j3.cx j3.global]
        if e.initStandardClasses = 0 then ⟨t4, j3, 4⟩
        else ⟨t4, j3, 0⟩

/-- The function `clean_up_jscx` (lines 88-92). -/
def clean_up_jscx (j : sm_cx_t) : List Event :=
  (if j.cx ≠ NULL then [Event.JS_DestroyContext j.cx] else []) ++
  (if j.rt ≠ NULL then [Event.JS_DestroyRuntime j.rt] else []) ++
  [Event.JS_ShutDown]

/-- The function `clean_up_tcx` (lines 94-98). -/
def clean_up_tcx (tcx : thread_cx_t) : List Event :=
  clean_up_jscx tcx.jscx ++ [Event.free_jscx tcx.jscx, Event.free_script tcx.script]

/-- Construction immediately followed by destruction, on a record whose fields
hold `j` beforehand: the whole trace. -/
def init_then_clean_up (j : sm_cx_t) (e : InitEnv) : List Event :=
  let r := init_jscx j e
  r.trace ++ clean_up_jscx r.jscx

/-- The construction steps of `init_jscx`, in source order. -/
inductive Step where
  | runtime
  | context
  | globalObject
  | standardClasses
  deriving DecidableEq, Repr

/-- The construction step an event attempts, if it is one of the four calls
whose result `init_jscx` tests. -/
def stepOf : Event → Option Step
  | .JS_NewRuntime _ => some Step.runtime
  | .JS_NewContext _ _ => some Step.context
  | .JS_NewCompartmentAndGlobalObject _ => some Step.globalObject
  | .JS_InitStandardClasses _ _ => some Step.standardClasses
  | _ => none

/-- The construction steps attempted in a trace, in order. -/
def stepsAttempted (tr : List Event) : List Step := tr.filterMap stepOf


/-! ## `print_object` and `run_script` -/

/-- What `JS_EncodeString` does with the pointer it is given: the engine
faults on it (the call does not return), or the call returns `NULL`, or it
returns a C string. -/
inductive Encoded where
  | fault
  | null
  | cstr (s : String)
  deriving DecidableEq, Repr

/-- What the engine answers on the calls of `run_script` and `print_object`.
For the three calls whose result is compared with `JS_TRUE`, `none` stands for
any other result and `some` carries what the call stored through its last
argument. -/
structure Engine where
  evaluateScript : Ptr → Ptr → String → Int → Option jsval
  valueToObject : Ptr → jsval → Option Ptr
  callFunctionName : Ptr → Ptr → String → Option jsval
  encodeString : Ptr → Ptr → Encoded

/-- The text `fprintf` writes for a `char *` under `%s`; for `NULL` the GNU C
library writes `(null)`. -/
def fmt_s : Option String → String
  | some s => s
  | none => "(null)"

/-- The function `print_object` (lines 100-116): its trace, and whether it
returns. -/
def print_object (eng : Engine) (cx : Ptr) (retval : jsval) : List Event × Bool :=
  let t0 := [Event.JS_ValueToObject cx retval]
  let fallback := [Event.fprintf Stream.stdout "no idea what it is\n"]
  match eng.valueToObject cx retval with
  | some val =>
    let t1 := t0 ++ [Event.JS_CallFunctionName cx val "toString"]
    match eng.callFunctionName cx val "toString" with
    | some objstr =>
      let jstr := JSVAL_TO_STRING objstr
      let t2 := t1 ++ [Event.JS_EncodeString cx jstr]
      match eng.encodeString cx jstr with
      | Encoded.fault => (t2, false)
      | Encoded.null =>
        (t2 ++ [Event.fprintf Stream.stdout ("=> \"" ++ fmt_s none ++ "\"\n"),
                Event.JS_free cx], true)
      | Encoded.cstr str =>
        (t2 ++ [Event.fprintf Stream.stdout ("=> \"" ++ fmt_s (some str) ++ "\"\n"),
                Event.JS_free cx], true)
    | none => (t1 ++ fallback, true)
  | none => (t0 ++ fallback, true)

/-- The line `run_script` writes first, echoing the script. -/
def echoLine (pid tid : Nat) (script : String) : String :=
  fmt_u pid ++ "(" ++ fmt_u tid ++ ") <= \"" ++ script ++ "\"\n"

/-- The function `run_script` (lines 118-146): its trace and the pointer
value it returns, `none` when it does not return. -/
def run_script (eng : Engine) (pid tid : Nat) (tcx : thread_cx_t) :
    List Event × Option Nat :=
  let cx := tcx.jscx.cx
  let t0 := [Event.fprintf Stream.stdout (echoLine pid tid tcx.script),
             Event.JS_BeginRequest cx,
             Event.JS_EvaluateScript cx tcx.jscx.global tcx.script tcx.len]
  match eng.evaluateScript cx tcx.jscx.global tcx.script tcx.len with
  | none => (t0 ++ [Event.JS_EndRequest cx], some 1)
  | some retval =>
    let t1 := t0 ++ [Event.JS_EndRequest cx]
    if JSVAL_IS_NULL retval then
      (t1 ++ [Event.fprintf Stream.stdout "=> null\n"], some 0)
    else if JSVAL_IS_VOID retval then
      (t1 ++ [Event.fprintf Stream.stdout "=> undefined\n"], some 0)
    else
      let p := print_object eng cx retval
      (t1 ++ p.1, if p.2 then some 0 else none)

/-- The texts a trace writes to `stdout`, in order. -/
def stdoutOf (tr : List Event) : List String :=
  tr.filterMap fun e =>
    match e with
    | .fprintf Stream.stdout text => some text
    | _ => none

/-- The request calls and the evaluation call of a trace, in order. -/
inductive ScopeOp where
  | beginRequest (cx : Ptr)
  | evaluate (cx : Ptr)
  | endRequest (cx : Ptr)
  deriving DecidableEq, Repr

/-- The scope operation an event is, if any. -/
def scopeOp : Event → Option ScopeOp
  | .JS_BeginRequest cx => some (ScopeOp.beginRequest cx)
  | .JS_EvaluateScript cx _ _ _ => some (ScopeOp.evaluate cx)
  | .JS_EndRequest cx => some (ScopeOp.endRequest cx)
  | _ => none

/-- The scope operations of a trace, in order. -/
def scopeOps (tr : List Event) : List ScopeOp := tr.filterMap scopeOp

/-! ## `main` -/

/-- What the C library returns to `main` for the task of loop index `i`:
the buffer from `calloc`, the record from `malloc` and what its three fields
hold, the outcomes of the construction calls, the code of `pthread_create`
and the thread id it stores in `tid[i]` when it succeeds, and the code of
`pthread_join`. -/
structure TaskEnv where
  script : Ptr
  jscx : Ptr
  fresh : sm_cx_t
  init : InitEnv
  create : Int
  tid : Nat
  join : Int
  deriving DecidableEq, Repr

/-- The environment of one run of `main`. -/
structure Host where
  task : Nat → TaskEnv
  strerror : Int → String

/-- The value an `int` holds after `int len = strlen(s)`. -/
def c_int (n : Nat) : Int := Int.bmod n (2 ^ 32)

/-- The C function `strlen` on a NUL-terminated argument. -/
def strlen (s : String) : Nat := s.utf8ByteSize

/-- The report `main` writes after `pthread_create` for index `i`. -/
def createReport (h : Host) (i : Nat) : Event :=
  let err := (h.task i).create
  if err ≠ OK then
    Event.fprintf Stream.stderr
      ("pthread_create(" ++ toString i ++ "): " ++ toString err ++ " : " ++ h.strerror err ++ "\n")
  else
    Event.fprintf Stream.stdin ("pthread_create(" ++ toString i ++ "): success")

/-- The report `main` writes after `pthread_join` for index `i`. -/
def joinReport (h : Host) (i : Nat) : Event :=
  let err := (h.task i).join
  if err ≠ OK then
    Event.fprintf Stream.stderr
      ("pthread_join(" ++ toString i ++ "): " ++ toString err ++ " : " ++ h.strerror err ++ "\n")
  else
    Event.fprintf Stream.stdin ("pthread_join(" ++ toString i ++ "): success")

/-- The entry `tcx[i]` as one pass of the first loop fills it in for the
argument `a`. -/
def task_tcx (h : Host) (i : Nat) (a : String) : thread_cx_t :=
  ⟨(init_jscx (h.task i).fresh (h.task i).init).jscx, a, c_int (strlen a)⟩

/-- The element `tid[i]` after the pass of the first loop for index `i`: the
array is declared without an initialiser (line 151) and `pthread_create`
stores a thread id only when it succeeds. -/
def task_tid (h : Host) (i : Nat) : Option Nat :=
  if (h.task i).create = OK then some (h.task i).tid else none

/-- The calls of one pass of the first loop of `main` (lines 155-179) for
index `i` and argument `a`, when neither `calloc` nor `malloc` has returned
`NULL`. -/
def spawn_body (h : Host) (i : Nat) (a : String) : List (Nat × Event) :=
  let len := c_int (strlen a)
  let r := init_jscx (h.task i).fresh (h.task i).init
  [(i, Event.calloc (len + 1) 1),
   (i, Event.fprintf Stream.stdin ("script: " ++ a)),
   (i, Event.strncpy a len),
   (i, Event.malloc_sm_cx_t)] ++
  r.trace.map (Prod.mk i) ++
  (if r.code ≠ OK then
    [(i, Event.fprintf Stream.stderr ("init_jscx: " ++ toString r.code ++ "\n"))]
   else []) ++
  [(i, Event.pthread_create (task_tcx h i a)), (i, createReport h i)]

/-- The calls of the pass of the first loop for index `i` in which `malloc`
returns `NULL` (line 164): `init_jscx` is handed `NULL`, calls
`JS_NewRuntime` and stores the result through it (line 61). -/
def fault_body (i : Nat) (a : String) : List (Nat × Event) :=
  let len := c_int (strlen a)
  [(i, Event.calloc (len + 1) 1),
   (i, Event.fprintf Stream.stdin ("script: " ++ a)),
   (i, Event.strncpy a len),
   (i, Event.malloc_sm_cx_t),
   (i, Event.JS_NewRuntime (8 * 1024 * 1024))]

/-- How the first loop of `main` ends: it falls off its end with the entries
`tcx[i]` and `tid[i]` it filled in, or `main` returns from inside it, or the
behaviour becomes undefined inside it. -/
inductive LoopEnd where
  | filled (entries : List (thread_cx_t × Option Nat))
  | returned (code : Int)
  | undefined
  deriving DecidableEq, Repr

/-- The end of the loop after one more pass has put `e` in front. -/
def LoopEnd.push (e : thread_cx_t × Option Nat) : LoopEnd → LoopEnd
  | .filled entries => .filled (e :: entries)
  | .returned code => .returned code
  | .undefined => .undefined

/-- The first loop of `main` (lines 154-180) from index `i` on, over the
arguments `arg[i+1], ...` still to come.  Every call is paired with the value
of the loop variable at which it is made. -/
def spawn_loop (h : Host) : Nat → List String → List (Nat × Event) × LoopEnd
  | _, [] => ([], LoopEnd.filled [])
  | i, a :: rest =>
    if (h.task i).script = NULL then
      ([(i, Event.calloc (c_int (strlen a) + 1) 1)], LoopEnd.returned 5)
    else if (h.task i).jscx = NULL then
      (fault_body i a, LoopEnd.undefined)
    else
      let next := spawn_loop h (i + 1) rest
      (spawn_body h i a ++ next.1, next.2.push (task_tcx h i a, task_tid h i))

/-- The calls of one pass of the second loop of `main` (lines 183-191) for
index `i`, entry `tcx` and a `tid[i]` that holds the thread id `t`. -/
def join_body (h : Host) (i : Nat) (tcx : thread_cx_t) (t : Nat) : List (Nat × Event) :=
  [(i, Event.pthread_join (some t)), (i, joinReport h i)] ++
    (clean_up_tcx tcx).map (Prod.mk i)

/-- The second loop of `main` (lines 182-192) from index `i` on, over the
entries `tcx[i], ...` and `tid[i], ...`: its trace, and whether it falls off
its end.  At an element of `tid` that was never written, `pthread_join` is
called with an indeterminate thread id and the behaviour is undefined. -/
def join_loop (h : Host) : Nat → List (thread_cx_t × Option Nat) → List (Nat × Event) × Bool
  | _, [] => ([], true)
  | i, (_, none) :: _ => ([(i, Event.pthread_join none)], false)
  | i, (tcx, some t) :: rest =>
    let next := join_loop h (i + 1) rest
    (join_body h i tcx t ++ next.1, next.2)

/-- The result of `main`: the calls made on the main thread, each with the
loop index at which it is made, and the exit status, `none` when the
behaviour became undefined before `main` returned. -/
structure MainResult where
  trace : List (Nat × Event)
  exit : Option Int

/-- The function `main` (lines 148-195); `arg` is the whole argument vector,
program name included, and `argc` its length. -/
def main (h : Host) (arg : List String) : MainResult :=
  match spawn_loop h 0 (arg.drop 1) with
  | (t, LoopEnd.returned code) => ⟨t, some code⟩
  | (t, LoopEnd.undefined) => ⟨t, none⟩
  | (t, LoopEnd.filled entries) =>
    let j := join_loop h 0 entries
    ⟨t ++ j.1, if j.2 then some 0 else none⟩

/-- The entries the first loop fills in from index `i` on when no allocation
fails. -/
def entries (h : Host) : Nat → List String → List (thread_cx_t × Option Nat)
  | _, [] => []
  | i, a :: rest => (task_tcx h i a, task_tid h i) :: entries h (i + 1) rest

/-- A thread operation of `main`: the spawn attempt or the join call for the
task with the given index. -/
inductive ThreadOp where
  | spawn (i : Nat)
  | join (i : Nat)
  deriving DecidableEq, Repr

/-- The thread operation an indexed call is, if any. -/
def threadOp : Nat × Event → Option ThreadOp
  | (i, .pthread_create _) => some (ThreadOp.spawn i)
  | (i, .pthread_join _) => some (ThreadOp.join i)
  | _ => none

/-- The thread operations of a trace of `main`, in order. -/
def threadOps (tr : List (Nat × Event)) : List ThreadOp := tr.filterMap threadOp

/-- The index of the Worker thread an indexed call starts, if it starts one:
a `pthread_create` that returns 0. -/
def workerOf (h : Host) : Nat × Event → Option Nat
  | (i, .pthread_create _) => if (h.task i).create = OK then some i else none
  | _ => none

/-- The Worker threads started in a trace of `main`, in order. -/
def workers (h : Host) (tr : List (Nat × Event)) : List Nat := tr.filterMap (workerOf h)

/-- Whether a call is one by which `clean_up_tcx` releases the handle or the
script buffer of its task: the two destroy calls and the two `free`s. -/
def isRelease : Event → Bool
  | .JS_DestroyContext _ => true
  | .JS_DestroyRuntime _ => true
  | .free_jscx _ => true
  | .free_script _ => true
  | _ => false

/-- The phase of a call of the second loop: `2 * i` for the join call for
thread `i`, `2 * i + 1` for every call that `clean_up_tcx` makes for task
`i`. -/
def phaseOf : Nat × Event → Option Nat
  | (i, .pthread_join _) => some (2 * i)
  | (i, .JS_DestroyContext _) => some (2 * i + 1)
  | (i, .JS_DestroyRuntime _) => some (2 * i + 1)
  | (i, .JS_ShutDown) => some (2 * i + 1)
  | (i, .free_jscx _) => some (2 * i + 1)
  | (i, .free_script _) => some (2 * i + 1)
  | _ => none

/-- The phases of the join calls and of the calls of `clean_up_tcx` in a trace
of `main`, in order; the list is empty exactly when the trace has no such
call. -/
def phases (tr : List (Nat × Event)) : List Nat := tr.filterMap phaseOf

/-- The first construction call that fails under `e`, if any. -/
def firstFailure (e : InitEnv) : Option Step :=
  if e.newRuntime = NULL then some Step.runtime
  else if e.newContext = NULL then some Step.context
  else if e.newGlobal = NULL then some Step.globalObject
  else if e.initStandardClasses = 0 then some Step.standardClasses
  else none

/-- What a call of `op_callback` does, by kind. -/
inductive Action where
  | log
  | uninstall
  | collect
  | reinstall
  deriving DecidableEq, Repr

/-- The kind of action of a call made by `op_callback`. -/
def actionOf : Event → Option Action
  | .fprintf _ _ => some Action.log
  | .JS_SetOperationCallback _ none => some Action.uninstall
  | .JS_SetOperationCallback _ (some Callback.op_callback) => some Action.reinstall
  | .JS_MaybeGC _ => some Action.collect
  | _ => none

/-- The actions of a trace, in order. -/
def actions (tr : List Event) : List Action := tr.filterMap actionOf

/-! ## Sample environments -/

/-- Construction calls that all succeed. -/
def initOk : InitEnv := ⟨11, 12, 13, 1⟩

/-- A task for which every call succeeds; its thread gets the id `40`. -/
def taskOk : TaskEnv := ⟨21, 22, ⟨7, 9, 5⟩, initOk, 0, 40, 0⟩

/-- An engine that evaluates every script to the value with bits `42`,
converts it to the object `31`, whose `toString` yields the string at `77`,
encoded as `"42"`. -/
def engOk : Engine :=
  ⟨fun _ _ _ _ => some (jsval.other 42), fun _ _ => some 31,
   fun _ _ _ => some (jsval.string 77), fun _ _ => Encoded.cstr "42"⟩

/-- The engine `engOk`, except that `JS_EncodeString` runs out of memory and
returns `NULL`. -/
def engEncodeNull : Engine := { engOk with encodeString := fun _ _ => Encoded.null }

/-- An engine for the script `({toString: function () { return 5 }})`: the
value is an object whose `toString` returns the number `5`, not a string, and
`JS_EncodeString` faults on the pointer made from it. -/
def engToStringNumber : Engine :=
  { engOk with
    callFunctionName := fun _ _ _ => some (jsval.other 5)
    encodeString := fun _ str => if str = 77 then Encoded.cstr "42" else Encoded.fault }

/-- A task whose runtime allocation fails, in a record whose `cx` field holds
the stale value `9`. -/
def taskNoRuntime : TaskEnv := ⟨21, 22, ⟨7, 9, 5⟩, ⟨0, 12, 13, 1⟩, 0, 40, 0⟩

/-- A host on which the runtime allocation of every task fails. -/
def hostNoRuntime : Host := ⟨fun _ => taskNoRuntime, fun _ => "error"⟩

/-- A host on which the script buffer of the task of index `1` cannot be
allocated and every other call succeeds. -/
def hostSecondAllocFails : Host :=
  ⟨fun i => if i = 1 then { taskOk with script := NULL } else taskOk, fun _ => "error"⟩

/-- A host on which the script buffer of the task of index `1` cannot be
allocated and `pthread_create` fails with code `11` for every task. -/
def hostNoThreads : Host :=
  ⟨fun i => if i = 1 then { taskOk with script := NULL, create := 11 }
            else { taskOk with create := 11 },
   fun _ => "error"⟩

/-- A host on which `pthread_create` fails with code `11` for the task of
index `0` and every other call succeeds. -/
def hostFirstSpawnFails : Host :=
  ⟨fun i => if i = 0 then { taskOk with create := 11 } else { taskOk with tid := 40 + i },
   fun _ => "error"⟩

/-- A host on which `pthread_create` fails with code `11` for every task. -/
def hostSpawnFails : Host := ⟨fun _ => { taskOk with create := 11 }, fun _ => "error"⟩

/-- A host on which `malloc` returns `NULL` for the record of every task. -/
def hostNoRecord : Host := ⟨fun _ => { taskOk with jscx := NULL }, fun _ => "error"⟩

/-! ## Auxiliary facts -/

theorem scopeOps_print_object (eng : Engine) (cx : Ptr) (v : jsval) :
    scopeOps (print_object eng cx v).1 = [] := by
  unfold print_object
  cases h1 : eng.valueToObject cx v with
  | none => simp [scopeOps, scopeOp]
  | some obj =>
    cases h2 : eng.callFunctionName cx obj "toString" with
    | none => simp [scopeOps, scopeOp, h2]
    | some objstr =>
      cases h3 : eng.encodeString cx (JSVAL_TO_STRING objstr) <;>
        simp [scopeOps, scopeOp, h2, h3]

theorem threadOps_append (t1 t2 : List (Nat × Event)) :
    threadOps (t1 ++ t2) = threadOps t1 ++ threadOps t2 := by
  simp [threadOps]

theorem workers_append (h : Host) (t1 t2 : List (Nat × Event)) :
    workers h (t1 ++ t2) = workers h t1 ++ workers h t2 := by
  simp [workers]

theorem phases_append (t1 t2 : List (Nat × Event)) :
    phases (t1 ++ t2) = phases t1 ++ phases t2 := by
  simp [phases]

theorem threadOps_spawn_body (h : Host) (i : Nat) (a : String) :
    threadOps (spawn_body h i a) = [ThreadOp.spawn i] := by
  have hc : threadOp (i, createReport h i) = none := by
    unfold createReport
    dsimp only
    split_ifs <;> rfl
  unfold spawn_body
  by_cases h1 : (h.task i).init.newRuntime = NULL <;>
    by_cases h2 : (h.task i).init.newContext = NULL <;>
    by_cases h3 : (h.task i).init.newGlobal = NULL <;>
    by_cases h4 : (h.task i).init.initStandardClasses = 0 <;>
    simp [init_jscx, h1, h2, h3, h4, threadOps, threadOp, OK] <;> exact hc

theorem workers_init (h : Host) (i : Nat) (j : sm_cx_t) (e : InitEnv) :
    workers h ((init_jscx j e).trace.map (Prod.mk i)) = [] := by
  by_cases h1 : e.newRuntime = NULL <;> by_cases h2 : e.newContext = NULL <;>
    by_cases h3 : e.newGlobal = NULL <;> by_cases h4 : e.initStandardClasses = 0 <;>
    simp [init_jscx, h1, h2, h3, h4, workers, workerOf]

theorem workers_spawn_body (h : Host) (i : Nat) (a : String) :
    workers h (spawn_body h i a) = if (h.task i).create = OK then [i] else [] := by
  have hc : workerOf h (i, createReport h i) = none := by
    unfold createReport
    dsimp only
    split_ifs <;> rfl
  unfold spawn_body
  dsimp only
  rw [workers_append, workers_append, workers_append, workers_init]
  have h1 : ∀ (c : Int), workers h (if c ≠ OK then
      [(i, Event.fprintf Stream.stderr ("init_jscx: " ++ toString c ++ "\n"))] else []) = [] := by
    intro c
    split_ifs <;> rfl
  rw [h1]
  simp only [workers, List.filterMap_cons, hc, List.filterMap_nil, List.append_nil,
    List.nil_append]
  simp only [workerOf]
  split_ifs <;> rfl

theorem phases_spawn_body (h : Host) (i : Nat) (a : String) :
    phases (spawn_body h i a) = [] := by
  have hc : phaseOf (i, createReport h i) = none := by
    unfold createReport
    dsimp only
    split_ifs <;> rfl
  unfold spawn_body
  by_cases h1 : (h.task i).init.newRuntime = NULL <;>
    by_cases h2 : (h.task i).init.newContext = NULL <;>
    by_cases h3 : (h.task i).init.newGlobal = NULL <;>
    by_cases h4 : (h.task i).init.initStandardClasses = 0 <;>
    simp [init_jscx, h1, h2, h3, h4, phases, phaseOf, OK] <;> exact hc

theorem phases_join_body (h : Host) (i : Nat) (tcx : thread_cx_t) (t : Nat) :
    ∃ n, phases (join_body h i tcx t) = 2 * i :: List.replicate n (2 * i + 1) := by
  have hc : phaseOf (i, joinReport h i) = none := by
    unfold joinReport
    dsimp only
    split_ifs <;> rfl
  unfold join_body clean_up_tcx clean_up_jscx
  split_ifs
  · refine ⟨5, ?_⟩
    simp only [List.map_append, List.map_cons, List.map_nil, List.append_assoc, List.cons_append,
      List.nil_append, phases, List.filterMap_cons, hc]
    rfl
  · refine ⟨4, ?_⟩
    simp only [List.map_append, List.map_cons, List.map_nil, List.append_assoc, List.cons_append,
      List.nil_append, phases, List.filterMap_cons, hc]
    rfl
  · refine ⟨4, ?_⟩
    simp only [List.map_append, List.map_cons, List.map_nil, List.append_assoc, List.cons_append,
      List.nil_append, phases, List.filterMap_cons, hc]
    rfl
  · refine ⟨3, ?_⟩
    simp only [List.map_append, List.map_cons, List.map_nil, List.append_assoc, List.cons_append,
      List.nil_append, phases, List.filterMap_cons, hc]
    rfl

theorem spawn_loop_cons_null (h : Host) (i : Nat) (a : String) (rest : List String)
    (hs : (h.task i).script = NULL) :
    spawn_loop h i (a :: rest) =
      ([(i, Event.calloc (c_int (strlen a) + 1) 1)], LoopEnd.returned 5) := by
  simp [spawn_loop, hs]

theorem spawn_loop_cons_fault (h : Host) (i : Nat) (a : String) (rest : List String)
    (hs : (h.task i).script ≠ NULL) (hj : (h.task i).jscx = NULL) :
    spawn_loop h i (a :: rest) = (fault_body i a, LoopEnd.undefined) := by
  simp [spawn_loop, hs, hj]

theorem spawn_loop_cons_ok (h : Host) (i : Nat) (a : String) (rest : List String)
    (hs : (h.task i).script ≠ NULL) (hj : (h.task i).jscx ≠ NULL) :
    spawn_loop h i (a :: rest) =
      (spawn_body h i a ++ (spawn_loop h (i + 1) rest).1,
       (spawn_loop h (i + 1) rest).2.push (task_tcx h i a, task_tid h i)) := by
  simp [spawn_loop, hs, hj]

/-- The first loop, from any index: it makes spawn attempts for a run of `k`
consecutive tasks, starts the Worker threads of those among them whose
`pthread_create` returns 0, and makes no join call and no call of
`clean_up_tcx`.  It stops at the first task whose script buffer cannot be
allocated (`main` returns 5) or whose handle record cannot be allocated
(undefined behaviour), or it falls off its end having filled in every
entry. -/
theorem spawn_loop_spec (h : Host) : ∀ (l : List String) (i : Nat),
    ∃ k, k ≤ l.length ∧
      threadOps (spawn_loop h i l).1 = (List.range' i k).map ThreadOp.spawn ∧
      workers h (spawn_loop h i l).1 =
        (List.range' i k).filter (fun m => decide ((h.task m).create = OK)) ∧
      phases (spawn_loop h i l).1 = [] ∧
      (∀ m, m < k → (h.task (i + m)).script ≠ NULL ∧ (h.task (i + m)).jscx ≠ NULL) ∧
      (((spawn_loop h i l).2 = LoopEnd.returned 5 ∧ k < l.length ∧
          (h.task (i + k)).script = NULL) ∨
        ((spawn_loop h i l).2 = LoopEnd.undefined ∧ k < l.length ∧
          (h.task (i + k)).script ≠ NULL ∧ (h.task (i + k)).jscx = NULL) ∨
        (k = l.length ∧ (spawn_loop h i l).2 = LoopEnd.filled (entries h i l))) := by
  intro l
  induction l with
  | nil =>
    intro i
    exact ⟨0, by simp [spawn_loop, threadOps, workers, phases, entries]⟩
  | cons a rest ih =>
    intro i
    by_cases hs : (h.task i).script = NULL
    · rw [spawn_loop_cons_null h i a rest hs]
      refine ⟨0, by simp, ?_, ?_, ?_, ?_, ?_⟩
      · simp [threadOps, threadOp]
      · simp [workers, workerOf]
      · simp [phases, phaseOf]
      · intro m hm
        exact absurd hm (Nat.not_lt_zero m)
      · left
        simpa using hs
    · by_cases hj : (h.task i).jscx = NULL
      · rw [spawn_loop_cons_fault h i a rest hs hj]
        refine ⟨0, by simp, ?_, ?_, ?_, ?_, ?_⟩
        · simp [fault_body, threadOps, threadOp]
        · simp [fault_body, workers, workerOf]
        · simp [fault_body, phases, phaseOf]
        · intro m hm
          exact absurd hm (Nat.not_lt_zero m)
        · right
          left
          exact ⟨rfl, by simp, by simpa using hs, by simpa using hj⟩
      · obtain ⟨k, hk, ht, hw, hp, hall, hend⟩ := ih (i + 1)
        rw [spawn_loop_cons_ok h i a rest hs hj]
        refine ⟨k + 1, by simpa using hk, ?_, ?_, ?_, ?_, ?_⟩
        · simp only [threadOps_append, threadOps_spawn_body, ht, List.range'_succ, List.map_cons,
            List.singleton_append]
        · simp only [workers_append, workers_spawn_body, hw, List.range'_succ, List.filter_cons]
          by_cases hc : (h.task i).create = OK <;> simp [hc]
        · simp only [phases_append, phases_spawn_body, hp, List.append_nil]
        · intro m hm
          cases m with
          | zero => exact ⟨by simpa using hs, by simpa using hj⟩
          | succ n =>
            have := hall n (by omega)
            rwa [show i + (n + 1) = i + 1 + n by omega]
        · rcases hend with ⟨h2, hlt, hnull⟩ | ⟨h2, hlt, hnn, hnull⟩ | ⟨hkl, h2⟩
          · left
            refine ⟨by simp [h2, LoopEnd.push], by simpa using hlt, ?_⟩
            rwa [show i + (k + 1) = i + 1 + k by omega]
          · right
            left
            refine ⟨by simp [h2, LoopEnd.push], by simpa using hlt, ?_, ?_⟩
            · rwa [show i + (k + 1) = i + 1 + k by omega]
            · rwa [show i + (k + 1) = i + 1 + k by omega]
          · right
            right
            exact ⟨by simp [hkl], by simp [h2, LoopEnd.push, entries]⟩

theorem join_loop_cons_some (h : Host) (i : Nat) (tcx : thread_cx_t) (t : Nat)
    (rest : List (thread_cx_t × Option Nat)) :
    join_loop h i ((tcx, some t) :: rest) =
      (join_body h i tcx t ++ (join_loop h (i + 1) rest).1, (join_loop h (i + 1) rest).2) := by
  simp [join_loop]

theorem join_loop_cons_none (h : Host) (i : Nat) (tcx : thread_cx_t)
    (rest : List (thread_cx_t × Option Nat)) :
    join_loop h i ((tcx, none) :: rest) = ([(i, Event.pthread_join none)], false) := by
  simp [join_loop]

/-- The phases of one pass of the second loop, cut or not: the join call of
index `i` and then calls of `clean_up_tcx` for task `i`. -/
theorem phases_join_loop_cons (h : Host) (i : Nat) (e : thread_cx_t × Option Nat)
    (rest : List (thread_cx_t × Option Nat)) :
    ∃ n tl, phases (join_loop h i (e :: rest)).1 = (2 * i :: List.replicate n (2 * i + 1)) ++ tl ∧
      (tl = [] ∨ tl = phases (join_loop h (i + 1) rest).1) := by
  obtain ⟨tcx, _ | t⟩ := e
  · exact ⟨0, [], by simp [join_loop_cons_none, phases, phaseOf], Or.inl rfl⟩
  · obtain ⟨n, hn⟩ := phases_join_body h i tcx t
    exact ⟨n, _, by rw [join_loop_cons_some, phases_append, hn], Or.inr rfl⟩

theorem phases_join_loop_lt (h : Host) : ∀ (es : List (thread_cx_t × Option Nat)) (i : Nat),
    ∀ x ∈ phases (join_loop h i es).1, x < 2 * (i + es.length) := by
  intro es
  induction es with
  | nil => intro i x hx; simp [join_loop, phases] at hx
  | cons e rest ih =>
    intro i x hx
    obtain ⟨n, tl, hn, htl⟩ := phases_join_loop_cons h i e rest
    rw [hn] at hx
    simp only [List.mem_append, List.mem_cons, List.mem_replicate] at hx
    simp only [List.length_cons]
    rcases hx with (hx | hx) | hx
    · omega
    · omega
    · rcases htl with htl | htl
      · rw [htl] at hx
        exact absurd hx (List.not_mem_nil x)
      · rw [htl] at hx
        have := ih (i + 1) x hx
        omega

theorem main_eq (h : Host) (arg : List String) :
    main h arg =
      match (spawn_loop h 0 (arg.drop 1)).2 with
      | LoopEnd.returned code => ⟨(spawn_loop h 0 (arg.drop 1)).1, some code⟩
      | LoopEnd.undefined => ⟨(spawn_loop h 0 (arg.drop 1)).1, none⟩
      | LoopEnd.filled es =>
        ⟨(spawn_loop h 0 (arg.drop 1)).1 ++ (join_loop h 0 es).1,
         if (join_loop h 0 es).2 then some 0 else none⟩ := by
  unfold main
  rcases spawn_loop h 0 (arg.drop 1) with ⟨t, es | code | _⟩ <;> rfl

/-- A run of `main` that returns a non-zero status: the first loop stopped at
the first index `k` whose script buffer could not be allocated, after spawn
attempts for the tasks before `k` and before any join call or call of
`clean_up_tcx`. -/
theorem main_of_nonzero (h : Host) (arg : List String) (c : Int)
    (hret : (main h arg).exit = some c) (hne : c ≠ 0) :
    ∃ k, k < arg.length - 1 ∧ (h.task k).script = NULL ∧
      (∀ m, m < k → (h.task m).script ≠ NULL ∧ (h.task m).jscx ≠ NULL) ∧
      threadOps (main h arg).trace = (List.range k).map ThreadOp.spawn ∧
      workers h (main h arg).trace =
        (List.range k).filter (fun m => decide ((h.task m).create = OK)) ∧
      phases (main h arg).trace = [] ∧ c = 5 := by
  obtain ⟨k, hk, ht, hw, hp, hbefore, hend⟩ := spawn_loop_spec h (arg.drop 1) 0
  have hlen : (arg.drop 1).length = arg.length - 1 := by simp
  rcases hend with ⟨h2, hlt, hnull⟩ | ⟨h2, _, _, _⟩ | ⟨_, h2⟩
  · rw [main_eq, h2] at hret
    refine ⟨k, by omega, by simpa using hnull, ?_, ?_, ?_, ?_, ?_⟩
    · intro m hm
      simpa using hbefore m hm
    · rw [main_eq, h2, ht, List.range_eq_range']
    · rw [main_eq, h2, hw, List.range_eq_range']
    · rw [main_eq, h2, hp]
    · simpa using hret.symm
  · rw [main_eq, h2] at hret
    simp at hret
  · rw [main_eq, h2] at hret
    dsimp only at hret
    split_ifs at hret
    exact absurd (Option.some.inj hret).symm hne

theorem phaseOf_none_of_phases_nil (tr : List (Nat × Event)) (hp : phases tr = [])
    (x : Nat × Event) (hx : x ∈ tr) : phaseOf x = none := by
  cases hph : phaseOf x with
  | none => rfl
  | some n =>
    have : n ∈ phases tr := List.mem_filterMap.mpr ⟨x, hx, hph⟩
    rw [hp] at this
    exact absurd this (List.not_mem_nil n)

/-- The paths of `run_script` on which every result that `print_object` uses
has been tested or is what it is taken to be: a failed evaluation, the null
and the undefined value, a failed conversion, a failed `toString` call, and a
`toString` call that returns a string which `JS_EncodeString` encodes. -/
theorem run_script_tested_paths (eng : Engine) (pid tid : Nat) (tcx : thread_cx_t) :
    (eng.evaluateScript tcx.jscx.cx tcx.jscx.global tcx.script tcx.len = none →
        (run_script eng pid tid tcx).2 = some 1 ∧
        stdoutOf (run_script eng pid tid tcx).1 = [echoLine pid tid tcx.script]) ∧
      (eng.evaluateScript tcx.jscx.cx tcx.jscx.global tcx.script tcx.len = some jsval.null →
        (run_script eng pid tid tcx).2 = some 0 ∧
        stdoutOf (run_script eng pid tid tcx).1 = [echoLine pid tid tcx.script, "=> null\n"]) ∧
      (eng.evaluateScript tcx.jscx.cx tcx.jscx.global tcx.script tcx.len = some jsval.void →
        (run_script eng pid tid tcx).2 = some 0 ∧
        stdoutOf (run_script eng pid tid tcx).1 =
          [echoLine pid tid tcx.script, "=> undefined\n"]) ∧
      (∀ v, eng.evaluateScript tcx.jscx.cx tcx.jscx.global tcx.script tcx.len = some v →
        v ≠ jsval.null → v ≠ jsval.void →
        (eng.valueToObject tcx.jscx.cx v = none →
          (run_script eng pid tid tcx).2 = some 0 ∧
          stdoutOf (run_script eng pid tid tcx).1 =
            [echoLine pid tid tcx.script, "no idea what it is\n"]) ∧
        (∀ obj, eng.valueToObject tcx.jscx.cx v = some obj →
          (eng.callFunctionName tcx.jscx.cx obj "toString" = none →
            (run_script eng pid tid tcx).2 = some 0 ∧
            stdoutOf (run_script eng pid tid tcx).1 =
              [echoLine pid tid tcx.script, "no idea what it is\n"]) ∧
          (∀ str s, eng.callFunctionName tcx.jscx.cx obj "toString" = some (jsval.string str) →
            eng.encodeString tcx.jscx.cx str = Encoded.cstr s →
            (run_script eng pid tid tcx).2 = some 0 ∧
            stdoutOf (run_script eng pid tid tcx).1 =
              [echoLine pid tid tcx.script, "=> \"" ++ s ++ "\"\n"]))) := by
  refine ⟨?_, ?_, ?_, ?_⟩
  · intro h
    simp [run_script, h, stdoutOf]
  · intro h
    simp [run_script, h, stdoutOf, JSVAL_IS_NULL]
  · intro h
    simp [run_script, h, stdoutOf, JSVAL_IS_NULL, JSVAL_IS_VOID]
  · intro v h hn hv
    have h1 : JSVAL_IS_NULL v = false := by cases v <;> simp_all [JSVAL_IS_NULL]
    have h2 : JSVAL_IS_VOID v = false := by cases v <;> simp_all [JSVAL_IS_VOID]
    refine ⟨?_, ?_⟩
    · intro h3
      simp [run_script, h, h1, h2, print_object, h3, stdoutOf]
    · intro obj h3
      refine ⟨?_, ?_⟩
      · intro h4
        simp [run_script, h, h1, h2, print_object, h3, h4, stdoutOf]
      · intro str s h4 h5
        simp [run_script, h, h1, h2, print_object, h3, h4, h5, stdoutOf, JSVAL_TO_STRING, fmt_s]

/-! ## Claims about `op_callback` and `init_jscx` -/

/-- C9, as amended: every invocation of `op_callback` logs the interruption
first, then uninstalls the callback (the hook is disarmed from then until the
reinstall), runs the collection pass and reinstalls itself; it returns
`JS_TRUE`, never `JS_FALSE`, and the hook of its context is armed afterwards
whatever it was before. -/
theorem op_callback_actions (pid tid : Nat) (cx : Ptr) (hook : Option Callback) :
    actions (op_callback pid tid cx).1 =
        [Action.log, Action.uninstall, Action.collect, Action.reinstall] ∧
      hookAfter cx hook ((op_callback pid tid cx).1.take 2) = none ∧
      hookAfter cx hook ((op_callback pid tid cx).1.take 3) = none ∧
      hookAfter cx hook (op_callback pid tid cx).1 = some Callback.op_callback ∧
      (op_callback pid tid cx).2 = JS_TRUE ∧
      (op_callback pid tid cx).2 ≠ JS_FALSE := by
  simp [op_callback, actions, actionOf, hookAfter, hookStep, JS_TRUE, JS_FALSE]

/-- C9, counterexample: for process `100`, thread `7` and context `12` the
actions of `op_callback` are not in the order uninstall, log, collect,
reinstall: the log comes first. -/
theorem op_callback_order_counterexample :
    actions (op_callback 100 7 12).1 ≠
        [Action.uninstall, Action.log, Action.collect, Action.reinstall] ∧
      (actions (op_callback 100 7 12).1).head? = some Action.log := by
  decide

/-- C7: `init_jscx` returns 1, 2, 3 or 4 according to the first construction
call that fails (runtime, context, global object, standard classes) and makes
no construction call after it; it returns 0 exactly when all four succeed; and
two runs that return the same code have the same first failing step. -/
theorem init_jscx_code (j : sm_cx_t) (e : InitEnv) :
    (e.newRuntime = NULL →
        (init_jscx j e).code = 1 ∧
        stepsAttempted (init_jscx j e).trace = [Step.runtime]) ∧
      (e.newRuntime ≠ NULL → e.newContext = NULL →
        (init_jscx j e).code = 2 ∧
        stepsAttempted (init_jscx j e).trace = [Step.runtime, Step.context]) ∧
      (e.newRuntime ≠ NULL → e.newContext ≠ NULL → e.newGlobal = NULL →
        (init_jscx j e).code = 3 ∧
        stepsAttempted (init_jscx j e).trace =
          [Step.runtime, Step.context, Step.globalObject]) ∧
      (e.newRuntime ≠ NULL → e.newContext ≠ NULL → e.newGlobal ≠ NULL →
          e.initStandardClasses = 0 →
        (init_jscx j e).code = 4 ∧
        stepsAttempted (init_jscx j e).trace =
          [Step.runtime, Step.context, Step.globalObject, Step.standardClasses]) ∧
      ((init_jscx j e).code = 0 ↔
        e.newRuntime ≠ NULL ∧ e.newContext ≠ NULL ∧ e.newGlobal ≠ NULL ∧
          e.initStandardClasses ≠ 0) ∧
      (∀ (j2 : sm_cx_t) (e2 : InitEnv),
        (init_jscx j e).code = (init_jscx j2 e2).code → firstFailure e = firstFailure e2) := by
  refine ⟨?_, ?_, ?_, ?_, ?_, ?_⟩
  · intro h1
    simp [init_jscx, h1, stepsAttempted, stepOf]
  · intro h1 h2
    simp [init_jscx, h1, h2, stepsAttempted, stepOf]
  · intro h1 h2 h3
    simp [init_jscx, h1, h2, h3, stepsAttempted, stepOf]
  · intro h1 h2 h3 h4
    simp [init_jscx, h1, h2, h3, h4, stepsAttempted, stepOf]
  · unfold init_jscx
    by_cases h1 : e.newRuntime = NULL
    · simp [h1]
    · by_cases h2 : e.newContext = NULL
      · simp [h1, h2]
      · by_cases h3 : e.newGlobal = NULL
        · simp [h1, h2, h3]
        · by_cases h4 : e.initStandardClasses = 0 <;> simp [h1, h2, h3, h4]
  · intro j2 e2
    unfold init_jscx firstFailure
    by_cases h1 : e.newRuntime = NULL <;> by_cases h2 : e.newContext = NULL <;>
      by_cases h3 : e.newGlobal = NULL <;> by_cases h4 : e.initStandardClasses = 0 <;>
      by_cases k1 : e2.newRuntime = NULL <;> by_cases k2 : e2.newContext = NULL <;>
      by_cases k3 : e2.newGlobal = NULL <;> by_cases k4 : e2.initStandardClasses = 0 <;>
      simp [h1, h2, h3, h4, k1, k2, k3, k4]

/-- C7, witness: with the runtime allocation failing the code is 1 and only
the runtime step is attempted. -/
theorem init_jscx_code_witness :
    (init_jscx ⟨7, 9, 5⟩ ⟨0, 12, 13, 1⟩).code = 1 ∧
      stepsAttempted (init_jscx ⟨7, 9, 5⟩ ⟨0, 12, 13, 1⟩).trace = [Step.runtime] :=
  (init_jscx_code ⟨7, 9, 5⟩ ⟨0, 12, 13, 1⟩).1 rfl

/-- C10: on every path through `run_script` the request is begun once and
ended once on the context of the task's handle, with the evaluation call
between the two and nothing of the kind after the end. -/
theorem run_script_scope (eng : Engine) (pid tid : Nat) (tcx : thread_cx_t) :
    scopeOps (run_script eng pid tid tcx).1 =
      [ScopeOp.beginRequest tcx.jscx.cx, ScopeOp.evaluate tcx.jscx.cx,
       ScopeOp.endRequest tcx.jscx.cx] := by
  cases h : eng.evaluateScript tcx.jscx.cx tcx.jscx.global tcx.script tcx.len with
  | none => simp [run_script, h, scopeOps, scopeOp]
  | some v =>
    have hp := scopeOps_print_object eng tcx.jscx.cx v
    unfold scopeOps at hp
    cases v <;> simp [run_script, h, scopeOps, scopeOp, JSVAL_IS_NULL, JSVAL_IS_VOID, hp]

/-- C8, at the failing input: the record holds the stale context pointer `9`
and the runtime allocation fails, so `init_jscx` returns 1 having created no
context, and `clean_up_jscx` then passes `9` to `JS_DestroyContext`. -/
theorem init_then_clean_up_stale_context :
    (init_jscx ⟨7, 9, 5⟩ ⟨0, 12, 13, 1⟩).code = 1 ∧
      stepsAttempted (init_jscx ⟨7, 9, 5⟩ ⟨0, 12, 13, 1⟩).trace = [Step.runtime] ∧
      init_then_clean_up ⟨7, 9, 5⟩ ⟨0, 12, 13, 1⟩ =
        [Event.JS_NewRuntime 8388608, Event.JS_DestroyContext 9, Event.JS_ShutDown] := by
  decide


/-- C1, at the failing inputs.  First input: the script evaluates to a value
that is neither null nor undefined, the conversion to an object and the call
of its `toString` both succeed and the call returns a string, but
`JS_EncodeString` returns `NULL`; `print_object` does not test for that and
the outcome line is `=> "(null)"`, not the result of `toString`.  Second
input: `toString` returns the number `5`; `print_object` does not test that
the result is a string and hands `JS_EncodeString` the pointer `5` made from
its payload, on which the engine faults: no outcome line is written and
`run_script` does not return. -/
theorem run_script_unchecked_toString :
    (engEncodeNull.evaluateScript 12 13 "1+1" 3 = some (jsval.other 42) ∧
        engEncodeNull.valueToObject 12 (jsval.other 42) = some 31 ∧
        engEncodeNull.callFunctionName 12 31 "toString" = some (jsval.string 77) ∧
        engEncodeNull.encodeString 12 77 = Encoded.null ∧
        run_script engEncodeNull 3 4 ⟨⟨11, 12, 13⟩, "1+1", 3⟩ =
          ([Event.fprintf Stream.stdout "3(4) <= \"1+1\"\n",
            Event.JS_BeginRequest 12,
            Event.JS_EvaluateScript 12 13 "1+1" 3,
            Event.JS_EndRequest 12,
            Event.JS_ValueToObject 12 (jsval.other 42),
            Event.JS_CallFunctionName 12 31 "toString",
            Event.JS_EncodeString 12 77,
            Event.fprintf Stream.stdout "=> \"(null)\"\n",
            Event.JS_free 12],
           some 0)) ∧
      (engToStringNumber.evaluateScript 12 13 "1+1" 3 = some (jsval.other 42) ∧
        engToStringNumber.valueToObject 12 (jsval.other 42) = some 31 ∧
        engToStringNumber.callFunctionName 12 31 "toString" = some (jsval.other 5) ∧
        engToStringNumber.encodeString 12 5 = Encoded.fault ∧
        run_script engToStringNumber 3 4 ⟨⟨11, 12, 13⟩, "1+1", 3⟩ =
          ([Event.fprintf Stream.stdout "3(4) <= \"1+1\"\n",
            Event.JS_BeginRequest 12,
            Event.JS_EvaluateScript 12 13 "1+1" 3,
            Event.JS_EndRequest 12,
            Event.JS_ValueToObject 12 (jsval.other 42),
            Event.JS_CallFunctionName 12 31 "toString",
            Event.JS_EncodeString 12 5],
           none)) := by
  decide

/-! ## Claims about `main` -/

/-- C2, at the failing input: two script arguments, `pthread_create` fails
with code `11` for the first and succeeds for the second.  `main` reports the
failure, makes the second spawn attempt, and then calls `pthread_join` on
`tid[0]`, which was never written; the behaviour is undefined from there, the
thread of the second task is never joined and `main` does not return. -/
theorem main_joins_unwritten_tid :
    (hostFirstSpawnFails.task 0).create = 11 ∧
      (hostFirstSpawnFails.task 1).create = OK ∧
      threadOps (main hostFirstSpawnFails ["jsterm", "1", "2"]).trace =
        [ThreadOp.spawn 0, ThreadOp.spawn 1, ThreadOp.join 0] ∧
      (main hostFirstSpawnFails ["jsterm", "1", "2"]).trace.getLast? =
        some (0, Event.pthread_join none) ∧
      (main hostFirstSpawnFails ["jsterm", "1", "2"]).exit = none := by
  decide

/-- C3, at the failing inputs.  First input: one script argument whose
buffer and handle are allocated and for which `pthread_create` fails with
code `11`; `main` reports the failure and then calls `pthread_join` on the
unwritten `tid[0]`, so it does not return 0: it has no defined exit status.
Second input: the script buffer is allocated but `malloc` returns `NULL` for
the handle record; `init_jscx` stores through it and `main` has no defined
exit status either. -/
theorem main_no_exit_status :
    ((hostSpawnFails.task 0).script ≠ NULL ∧
        (hostSpawnFails.task 0).create = 11 ∧
        (main hostSpawnFails ["jsterm", "1+1"]).trace.drop 14 =
          [(0, Event.pthread_join none)] ∧
        (main hostSpawnFails ["jsterm", "1+1"]).exit = none) ∧
      ((hostNoRecord.task 0).script ≠ NULL ∧
        (hostNoRecord.task 0).jscx = NULL ∧
        (main hostNoRecord ["jsterm", "1+1"]).trace =
          [(0, Event.calloc 4 1),
           (0, Event.fprintf Stream.stdin "script: 1+1"),
           (0, Event.strncpy "1+1" 3),
           (0, Event.malloc_sm_cx_t),
           (0, Event.JS_NewRuntime 8388608)] ∧
        (main hostNoRecord ["jsterm", "1+1"]).exit = none) := by
  decide

/-- C4, at the failing input: one script argument whose runtime allocation
fails.  `init_jscx` returns 1, `main` reports it and then calls
`pthread_create` for the task all the same, on a handle whose runtime is
`NULL` and whose context is the stale value of the record. -/
theorem main_spawns_after_failed_init :
    (init_jscx (hostNoRuntime.task 0).fresh (hostNoRuntime.task 0).init).code = 1 ∧
      threadOps (main hostNoRuntime ["jsterm", "1+1"]).trace =
        [ThreadOp.spawn 0, ThreadOp.join 0] ∧
      (main hostNoRuntime ["jsterm", "1+1"]).trace.take 8 =
        [(0, Event.calloc 4 1),
         (0, Event.fprintf Stream.stdin "script: 1+1"),
         (0, Event.strncpy "1+1" 3),
         (0, Event.malloc_sm_cx_t),
         (0, Event.JS_NewRuntime 8388608),
         (0, Event.fprintf Stream.stderr "init_jscx: 1\n"),
         (0, Event.pthread_create ⟨⟨0, 9, 5⟩, "1+1", 3⟩),
         (0, Event.fprintf Stream.stdin "pthread_create(0): success")] := by
  decide

/-- C5, counterexample: with two script arguments and the second buffer
allocation failing, `main` returns 5 after it has spawned the worker thread of
the first task (`pthread_create` returned 0 for it). -/
theorem main_nonzero_after_spawn_counterexample :
    (main hostSecondAllocFails ["jsterm", "1", "2"]).exit = some 5 ∧
      (hostSecondAllocFails.task 0).create = OK ∧
      threadOps (main hostSecondAllocFails ["jsterm", "1", "2"]).trace = [ThreadOp.spawn 0] ∧
      workers hostSecondAllocFails (main hostSecondAllocFails ["jsterm", "1", "2"]).trace =
        [0] := by
  decide

/-- C5, as amended: when `main` returns a non-zero status, the status is 5 and
the cause is the failure of a script-buffer allocation, at some index `k`
before which every such allocation succeeded.  Before it returns `main` has
made spawn attempts for exactly the tasks `0, ..., k-1`, in order; the Worker
threads spawned are exactly those of these tasks whose `pthread_create`
returned 0, so no Worker thread has been spawned exactly when `k = 0` or every
one of these attempts failed; and `main` has made no `pthread_join` call and no
call of `clean_up_tcx` (no `JS_DestroyContext`, `JS_DestroyRuntime`,
`JS_ShutDown` or `free`). -/
theorem main_nonzero_exit (h : Host) (arg : List String) (c : Int)
    (hret : (main h arg).exit = some c) (hne : c ≠ 0) :
    c = 5 ∧
      ∃ k, k < arg.length - 1 ∧ (h.task k).script = NULL ∧
        (∀ m, m < k → (h.task m).script ≠ NULL) ∧
        threadOps (main h arg).trace = (List.range k).map ThreadOp.spawn ∧
        workers h (main h arg).trace =
          (List.range k).filter (fun m => decide ((h.task m).create = OK)) ∧
        (workers h (main h arg).trace = [] ↔ ∀ m, m < k → (h.task m).create ≠ OK) ∧
        ∀ i e, (i, e) ∈ (main h arg).trace →
          (∀ t, e ≠ Event.pthread_join t) ∧ isRelease e = false ∧ e ≠ Event.JS_ShutDown := by
  obtain ⟨k, hk, hnull, hbefore, ht, hw, hp, hc⟩ := main_of_nonzero h arg c hret hne
  refine ⟨hc, k, hk, hnull, fun m hm => (hbefore m hm).1, ht, hw, ?_, ?_⟩
  · rw [hw, List.filter_eq_nil_iff]
    constructor
    · intro hx m hm
      have := hx m (List.mem_range.mpr hm)
      simpa using this
    · intro hx m hm
      have := hx m (List.mem_range.mp hm)
      simpa using this
  · intro i e hmem
    have hnone := phaseOf_none_of_phases_nil _ hp (i, e) hmem
    cases e <;> simp [phaseOf] at hnone <;> simp [isRelease]

/-- C5, witness: the run of the counterexample returns the non-zero status 5;
the failing allocation is the second one and the Worker thread of the first
task has been spawned. -/
theorem main_nonzero_exit_witness :
    ∃ k, k < ["jsterm", "1", "2"].length - 1 ∧ (hostSecondAllocFails.task k).script = NULL ∧
      (∀ m, m < k → (hostSecondAllocFails.task m).script ≠ NULL) ∧
      threadOps (main hostSecondAllocFails ["jsterm", "1", "2"]).trace =
        (List.range k).map ThreadOp.spawn ∧
      workers hostSecondAllocFails (main hostSecondAllocFails ["jsterm", "1", "2"]).trace =
        (List.range k).filter (fun m => decide ((hostSecondAllocFails.task m).create = OK)) ∧
      (workers hostSecondAllocFails (main hostSecondAllocFails ["jsterm", "1", "2"]).trace = []
        ↔ ∀ m, m < k → (hostSecondAllocFails.task m).create ≠ OK) ∧
      ∀ i e, (i, e) ∈ (main hostSecondAllocFails ["jsterm", "1", "2"]).trace →
        (∀ t, e ≠ Event.pthread_join t) ∧ isRelease e = false ∧ e ≠ Event.JS_ShutDown :=
  (main_nonzero_exit hostSecondAllocFails ["jsterm", "1", "2"] 5 (by decide) (by decide)).2

/-- A run that returns 5 at `k = 1` without any Worker thread: the only spawn
attempt made before the failing allocation failed itself. -/
theorem main_nonzero_no_worker_example :
    (main hostNoThreads ["jsterm", "1", "2"]).exit = some 5 ∧
      threadOps (main hostNoThreads ["jsterm", "1", "2"]).trace = [ThreadOp.spawn 0] ∧
      workers hostNoThreads (main hostNoThreads ["jsterm", "1", "2"]).trace = [] := by
  decide

end JsTerm
